import Mathlib

/-!
Shallow embedding of `src/static/js/questionnaire.js`, the multi-step
questionnaire wizard script: section validation, step navigation, form
serialization, and the submit/fetch flow, together with theorems checking
the specified properties against the embedded code.
-/

/-- The kind of a form input, as distinguished by `input.type` /
`select` elements in the script. -/
inductive FieldType where
  | text
  | selectBox
  | radio
  | checkbox
deriving DecidableEq, Repr

/-- A form input element: its type, `name`, string `value`, `checked`
state (meaningful for radio/checkbox), and whether it carries the
`required` attribute. -/
structure FormField where
  type : FieldType
  name : String
  value : String
  checked : Bool
  required : Bool
deriving DecidableEq, Repr

/-- A section is the list of input elements it contains, in document order. -/
abbrev FormSection := List FormField

/-- Association-list update modelling a JS object assignment
`obj[key] = v`: overwrite the existing entry for `key` in place, else
append a new entry (insertion order preserved, as in JS objects). -/
def setAssoc {α : Type} : List (String × α) → String → α → List (String × α)
  | [], k, v => [(k, v)]
  | (k0, v0) :: rest, k, v =>
      if k0 = k then (k0, v) :: rest else (k0, v0) :: setAssoc rest k v

/-- Association-list read modelling JS `obj[key]`: the value at the first
entry for `key`, or `none` for `undefined`. -/
def lookupAssoc {α : Type} : List (String × α) → String → Option α
  | [], _ => none
  | (k0, v0) :: rest, k => if k0 = k then some v0 else lookupAssoc rest k

/-- One step of the `requiredInputs.forEach` loop of `validateSection`,
acting on the `radioGroups` object.  For a radio input:
`if (!radioGroups[name]) radioGroups[name] = false;` (truthiness test:
absent or `false`), then `if (input.checked) radioGroups[name] = true;`.
The checkbox and text/select branches of the callback contain
`return false`, which in a `forEach` callback only exits the callback for
that element — it neither aborts the iteration nor makes
`validateSection` return `false` — so those branches leave `radioGroups`
unchanged and have no other effect. -/
def radioGroupsStep (groups : List (String × Bool)) (input : FormField) :
    List (String × Bool) :=
  match input.type with
  | FieldType.radio =>
      let groups :=
        match lookupAssoc groups input.name with
        | none => setAssoc groups input.name false
        | some b => if b then groups else setAssoc groups input.name false
      if input.checked then setAssoc groups input.name true else groups
  | FieldType.checkbox => groups
  | _ => groups

/-- The `radioGroups` object built by the `forEach` over the section's
required inputs. -/
def collectRadioGroups (requiredInputs : List FormField) : List (String × Bool) :=
  requiredInputs.foldl radioGroupsStep []

/-- `validateSection(index)` from the script, on the section's input list:
collect the required inputs, build `radioGroups` from the required radios,
fail if any group is unanswered (`for (let group in radioGroups)`), then
fail if any required checkbox is unchecked (`for (let checkbox of
checkboxes)`), else succeed.  The `return false` statements inside the
`forEach` callback (for unchecked checkboxes and empty text/select values)
do not reach the caller, so they impose no condition here. -/
def validateSection (sec : FormSection) : Bool :=
  let requiredInputs := sec.filter fun f => f.required
  let radioGroups := collectRadioGroups requiredInputs
  if radioGroups.any fun g => !g.2 then false
  else
    let checkboxes := sec.filter fun f =>
      f.type == FieldType.checkbox && f.required
    if checkboxes.any fun c => !c.checked then false
    else true

/-- JS `String.prototype.trim()`: strip leading and trailing whitespace.
Defined over the character list so that it evaluates by kernel
reduction. -/
def jsTrim (s : String) : String :=
  String.mk
    (((s.toList.dropWhile Char.isWhitespace).reverse.dropWhile
        Char.isWhitespace).reverse)

/-- The validation predicate as the specification states it: every
required text/select field non-empty after trimming, every required
checkbox checked, and every required radio group with at least one
checked member. -/
def specValidateSection (sec : FormSection) : Bool :=
  sec.all fun f =>
    !f.required ||
      (match f.type with
       | FieldType.text => !(jsTrim f.value == "")
       | FieldType.selectBox => !(jsTrim f.value == "")
       | FieldType.checkbox => f.checked
       | FieldType.radio =>
           sec.any fun g =>
             g.type == FieldType.radio && g.name == f.name && g.checked)

/-- `validateSection(currentSection)` as called by the handlers: the
script indexes `sections[currentSection]`.  All theorems keep the index
in `[0, N)`, where the `getD` default is never used. -/
def validateAt (sections : List FormSection) (cur : Int) : Bool :=
  validateSection (sections.getD cur.toNat [])

/-- Observable outcome of one click handler run: the new value of the
`currentSection` variable, the index passed to `showSection` when it was
called, and the alert message when one was raised. -/
structure ClickOutcome where
  state : Int
  rendered : Option Int
  alerted : Option String
deriving DecidableEq, Repr

/-- The `nextBtn` click handler: if the current section validates,
increment `currentSection` and re-render only when the new index is still
below `totalSections`; otherwise alert and change nothing. -/
def nextClick (sections : List FormSection) (cur : Int) : ClickOutcome :=
  if validateAt sections cur then
    let cur := cur + 1
    if cur < (sections.length : Int) then
      { state := cur, rendered := some cur, alerted := none }
    else
      { state := cur, rendered := none, alerted := none }
  else
    { state := cur, rendered := none,
      alerted := some "Please answer all required questions before proceeding." }

/-- The `prevBtn` click handler: decrement `currentSection`
unconditionally, then re-render only when the new index is still
non-negative. -/
def prevClick (cur : Int) : ClickOutcome :=
  let cur := cur - 1
  if 0 ≤ cur then
    { state := cur, rendered := some cur, alerted := none }
  else
    { state := cur, rendered := none, alerted := none }

/-- The DOM effects of `showSection(index)`: the `active` class flags of
the sections, the progress-bar width (as an exact percentage), the step
counter text, and the `style.display` values of the three controls.
The smooth scroll to the top has no modelled state. -/
structure RenderEffects where
  active : List Bool
  progressPercent : ℚ
  stepCounter : Nat
  prevDisplay : String
  nextDisplay : String
  submitDisplay : String
deriving DecidableEq, Repr

/-- `showSection(index)` from the script: clear the `active` class on
every section, add it on section `index`, set the progress bar to
`((index + 1) / totalSections) * 100` percent, set the step counter to
`index + 1`, hide `prevBtn` exactly at index 0, and at the last index
hide `nextBtn` and show `submitBtn` (else the reverse).  The `active`
flags of the sections stand in for the section elements themselves. -/
def showSection (flags : List Bool) (index : Nat) : RenderEffects :=
  let totalSections := flags.length
  let cleared := flags.map fun _ => false
  let active := cleared.set index true
  let progress : ℚ := (((index : ℚ) + 1) / (totalSections : ℚ)) * 100
  let prevDisplay := if index = 0 then "none" else "inline-block"
  let nextSubmit :=
    if index = totalSections - 1 then ("none", "inline-block")
    else ("inline-block", "none")
  { active := active
    progressPercent := progress
    stepCounter := index + 1
    prevDisplay := prevDisplay
    nextDisplay := nextSubmit.1
    submitDisplay := nextSubmit.2 }

/-- JSON values, as produced by `response.json()` and consumed by the
submit handler.  Numbers are modelled as integers: the handler never
inspects numeric values, it only forwards them. -/
inductive Json where
  | null
  | bool (b : Bool)
  | num (n : Int)
  | str (s : String)
  | arr (elems : List Json)
  | obj (fields : List (String × Json))

/-- JS property access `result.key`: a field of an object, `undefined`
(`none`) otherwise. -/
def Json.getField : Json → String → Option Json
  | Json.obj fields, key => lookupAssoc fields key
  | _, _ => none

/-- JS truthiness of a JSON value. -/
def jsTruthy : Json → Bool
  | Json.null => false
  | Json.bool b => b
  | Json.num n => !(n == 0)
  | Json.str s => !(s == "")
  | Json.arr _ => true
  | Json.obj _ => true

/-- JS truthiness of a possibly-`undefined` value, as in
`if (result.success)`. -/
def optTruthy : Option Json → Bool
  | none => false
  | some v => jsTruthy v

/-- Escape of one character inside a JSON string literal (quote and
backslash; the handler's payloads contain no control characters). -/
def jsonEscapeChar (c : Char) : String :=
  if c = '"' then "\\\""
  else if c = '\\' then "\\\\"
  else String.singleton c

/-- A JSON string literal. -/
def jsonQuote (s : String) : String :=
  "\"" ++ String.join (s.toList.map jsonEscapeChar) ++ "\""

mutual

/-- `JSON.stringify` on the modelled JSON values. -/
def Json.stringify : Json → String
  | Json.null => "null"
  | Json.bool b => cond b "true" "false"
  | Json.num n => toString n
  | Json.str s => jsonQuote s
  | Json.arr elems => "[" ++ stringifyElems elems ++ "]"
  | Json.obj fields => "\x7b" ++ stringifyFields fields ++ "\x7d"

/-- Comma-separated serialization of array elements. -/
def stringifyElems : List Json → String
  | [] => ""
  | [x] => Json.stringify x
  | x :: y :: rest => Json.stringify x ++ "," ++ stringifyElems (y :: rest)

/-- Comma-separated serialization of object fields. -/
def stringifyFields : List (String × Json) → String
  | [] => ""
  | [kv] => jsonQuote kv.1 ++ ":" ++ Json.stringify kv.2
  | kv :: kv2 :: rest =>
      jsonQuote kv.1 ++ ":" ++ Json.stringify kv.2 ++ "," ++
        stringifyFields (kv2 :: rest)

end

/-- The submit button's observable state: its `textContent` label and its
`disabled` flag. -/
structure BtnState where
  label : String
  disabled : Bool
deriving DecidableEq, Repr

/-- Modelled from the spec: the submit control's original label.  The
HTML template is not part of this repository; the spec states that the
failure path reverts the submit control to its original label, and the
script restores the literal `'Submit Assessment'`, so that literal is the
original label. -/
def originalSubmitLabel : String := "Submit Assessment"

/-- The generic alert text of the submit handler's `catch` block. -/
def genericErrorAlert : String :=
  "An error occurred while processing your assessment. Please try again."

/-- What reaches `console.error('Error:', error)` in the `catch` block:
either the `Error` thrown in the `then` handler (whose message value is
`result.error || 'Prediction failed'`) or the transport/parse rejection
itself. -/
inductive CaughtError where
  | thrown (message : Json)
  | transport

/-- `result.error || 'Prediction failed'`: the `error` field when truthy,
else the fallback string. -/
def errorValue (result : Json) : Json :=
  match result.getField "error" with
  | some v => if jsTruthy v then v else Json.str "Prediction failed"
  | none => Json.str "Prediction failed"

/-- Observable effects of one run of the submit handler: final submit
button state, the `sessionStorage.setItem` call (key, value) if any, the
`window.location.href` assignment if any, the alert message if any, and
the `console.error` argument if any. -/
structure SubmitEffects where
  button : BtnState
  stored : Option (String × String)
  navigatedTo : Option String
  alerted : Option String
  logged : Option CaughtError

/-- The outcome of `fetch('/predict', ...).then(response =>
response.json())`: a parsed JSON value, or `none` for a transport or
parse rejection. -/
abbrev FetchOutcome := Option Json

/-- The `then`/`catch` chain of the submit handler, run with the busy
button state set before the fetch.  On `result.success` truthy: store the
stringified response under `riskResults` and navigate to `/results`
(button untouched).  Otherwise the `then` handler throws
`new Error(result.error || 'Prediction failed')`, and the `catch` block —
also reached directly on transport/parse failure — logs the error, alerts
the generic message, and restores the enabled `'Submit Assessment'`
button. -/
def handleFetch (busy : BtnState) (outcome : FetchOutcome) : SubmitEffects :=
  match outcome with
  | none =>
      { button := { label := "Submit Assessment", disabled := false }
        stored := none
        navigatedTo := none
        alerted := some genericErrorAlert
        logged := some CaughtError.transport }
  | some result =>
      if optTruthy (result.getField "success") then
        { button := busy
          stored := some ("riskResults", Json.stringify result)
          navigatedTo := some "/results"
          alerted := none
          logged := none }
      else
        { button := { label := "Submit Assessment", disabled := false }
          stored := none
          navigatedTo := none
          alerted := some genericErrorAlert
          logged := some (CaughtError.thrown (errorValue result)) }

/-- The form `submit` handler: if the current section fails validation,
alert and change nothing; otherwise set the button to the disabled
`'Processing...'` busy state, issue the fetch, and process its outcome
with the `then`/`catch` chain. -/
def submitHandler (sec : FormSection) (btn0 : BtnState)
    (outcome : FetchOutcome) : SubmitEffects :=
  if validateSection sec then
    handleFetch { label := "Processing...", disabled := true } outcome
  else
    { button := btn0
      stored := none
      navigatedTo := none
      alerted := some "Please complete all required fields and agree to the terms."
      logged := none }

/-- One entry of `new FormData(form).entries()`: a successful control
contributes its `(name, value)` pair; unchecked checkboxes and unchecked
radios contribute nothing. -/
def formDataEntry (f : FormField) : Option (String × String) :=
  match f.type with
  | FieldType.checkbox => if f.checked then some (f.name, f.value) else none
  | FieldType.radio => if f.checked then some (f.name, f.value) else none
  | _ => some (f.name, f.value)

/-- `new FormData(form).entries()` over the whole form, in form order. -/
def formDataEntries (form : List FormField) : List (String × String) :=
  form.filterMap formDataEntry

/-- The `for (let [key, value] of formData.entries()) data[key] = value;`
loop of the submit handler: fold the entries into a JS object, modelled
as an association list under `setAssoc`. -/
def serializeForm (form : List FormField) : List (String × String) :=
  (formDataEntries form).foldl (fun data kv => setAssoc data kv.1 kv.2) []

/-! ## Helper lemmas -/

theorem lookupAssoc_setAssoc {α : Type} (d : List (String × α)) (k k' : String)
    (v : α) :
    lookupAssoc (setAssoc d k v) k' =
      if k = k' then some v else lookupAssoc d k' := by
  induction d with
  | nil => simp [setAssoc, lookupAssoc]
  | cons hd tl ih =>
      obtain ⟨k0, v0⟩ := hd
      by_cases h1 : k0 = k
      · subst h1
        by_cases h2 : k0 = k' <;> simp [setAssoc, lookupAssoc, h2]
      · by_cases h2 : k0 = k'
        · subst h2
          have hkk : ¬k = k0 := fun h => h1 h.symm
          simp [setAssoc, lookupAssoc, h1, hkk]
        · simp [setAssoc, lookupAssoc, h1, h2, ih]

theorem lookupAssoc_foldl_setAssoc {α : Type} (entries : List (String × α))
    (d : List (String × α)) (key : String) :
    lookupAssoc (entries.foldl (fun acc kv => setAssoc acc kv.1 kv.2) d) key =
      (((entries.reverse.find? fun kv => kv.1 == key).map Prod.snd).or
        (lookupAssoc d key)) := by
  induction entries generalizing d with
  | nil => simp
  | cons kv rest ih =>
      simp only [List.foldl_cons, List.reverse_cons, List.find?_append, ih]
      cases hfind : rest.reverse.find? (fun kv => kv.1 == key) with
      | some x => simp
      | none =>
          simp only [Option.none_or, lookupAssoc_setAssoc]
          by_cases h : kv.1 = key
          · simp [List.find?, h]
          · have hb : (kv.1 == key) = false := by simp [h]
            simp [List.find?, hb, h]

/-! ## Claim theorems -/

/-- C1 (code-side evaluation at the failing input): a section whose only
input is a required text field with a whitespace-only value is accepted
by the script's `validateSection`, while the specified validation
predicate rejects it — the `return false` for an empty trimmed value sits
inside a `forEach` callback and never reaches the caller. -/
theorem validateSection_accepts_blank_required_text :
    validateSection
        [{ type := FieldType.text, name := "age", value := "   ",
           checked := false, required := true }] = true ∧
    specValidateSection
        [{ type := FieldType.text, name := "age", value := "   ",
           checked := false, required := true }] = false := by
  decide

/-- C9: when the current section fails validation, the next-button
handler raises the blocking alert and changes nothing: the index is not
incremented and `showSection` is not called. -/
theorem nextClick_blocked_on_invalid (sections : List FormSection) (cur : Int)
    (hv : validateAt sections cur = false) :
    nextClick sections cur =
      { state := cur, rendered := none,
        alerted := some "Please answer all required questions before proceeding." } := by
  simp [nextClick, hv]

/-- C9 witness: a section whose required checkbox is unchecked fails
validation, so the handler alerts and keeps the index at 0. -/
theorem nextClick_blocked_on_invalid_witness :
    nextClick
        [[{ type := FieldType.checkbox, name := "terms", value := "on",
            checked := false, required := true }]] 0 =
      { state := 0, rendered := none,
        alerted := some "Please answer all required questions before proceeding." } :=
  nextClick_blocked_on_invalid
    [[{ type := FieldType.checkbox, name := "terms", value := "on",
        checked := false, required := true }]] 0 (by decide)

/-- C10: a section with no required inputs at all passes
`validateSection` vacuously, so the next-button handler leaving such a
section never alerts and always increments the index. -/
theorem validateSection_vacuous (sec : FormSection)
    (sections : List FormSection) (cur : Int)
    (h : ∀ f ∈ sec, f.required = false)
    (hsec : sections.getD cur.toNat [] = sec) :
    validateSection sec = true ∧
    (nextClick sections cur).state = cur + 1 ∧
    (nextClick sections cur).alerted = none := by
  have h1 : (sec.filter fun f => f.required) = [] := by
    rw [List.filter_eq_nil_iff]
    intro f hf
    simp [h f hf]
  have h2 : (sec.filter fun f =>
      f.type == FieldType.checkbox && f.required) = [] := by
    rw [List.filter_eq_nil_iff]
    intro f hf
    simp [h f hf]
  have hval : validateSection sec = true := by
    unfold validateSection
    rw [h1, h2]
    rfl
  have hv : validateAt sections cur = true := by
    unfold validateAt
    rw [hsec]
    exact hval
  refine ⟨hval, ?_⟩
  unfold nextClick
  rw [hv]
  by_cases hlt : cur + 1 < (sections.length : Int) <;> simp [hlt]

/-- C10 witness: a section holding only an optional checkbox validates,
and the handler advances from index 0 to 1 without alert. -/
theorem validateSection_vacuous_witness :
    validateSection
        [{ type := FieldType.checkbox, name := "optin", value := "on",
           checked := false, required := false }] = true ∧
    (nextClick
        [[{ type := FieldType.checkbox, name := "optin", value := "on",
            checked := false, required := false }], []] 0).state = 0 + 1 ∧
    (nextClick
        [[{ type := FieldType.checkbox, name := "optin", value := "on",
            checked := false, required := false }], []] 0).alerted = none :=
  validateSection_vacuous
    [{ type := FieldType.checkbox, name := "optin", value := "on",
       checked := false, required := false }]
    [[{ type := FieldType.checkbox, name := "optin", value := "on",
        checked := false, required := false }], []] 0
    (by decide) (by decide)

/-- C2 counterexample: with a single valid section (N = 1, last index 0),
triggering the next handler sets `currentSection` to 1 > N - 1 = 0, and
triggering the previous handler at index 0 sets it to -1 < 0 — the claim
that the index never leaves `[0, N)` fails at the handler level. -/
theorem nav_bounds_counterexample :
    (nextClick [[]] 0).state = 1 ∧
    ¬((nextClick [[]] 0).state < (([[]] : List FormSection).length : Int)) ∧
    (prevClick 0).state = -1 ∧ (prevClick 0).state < 0 := by
  decide

/-- C2 amended: the handlers do let the stored index leave `[0, N)` by
exactly one step — advancing from the last index (when it validates) sets
it to N, and retreating from index 0 sets it to -1 — but in both boundary
cases no re-render happens, and any index the handlers do pass to
`showSection` lies in `[0, N)`. -/
theorem nav_handlers_bounds (sections : List FormSection) (cur : Int)
    (h0 : 0 ≤ cur) (hN : cur < (sections.length : Int)) :
    (∀ j ∈ (nextClick sections cur).rendered,
        0 ≤ j ∧ j < (sections.length : Int)) ∧
    (∀ j ∈ (prevClick cur).rendered,
        0 ≤ j ∧ j < (sections.length : Int)) ∧
    (cur = (sections.length : Int) - 1 → validateAt sections cur = true →
      (nextClick sections cur).state = (sections.length : Int) ∧
      (nextClick sections cur).rendered = none) ∧
    (cur = 0 →
      (prevClick cur).state = -1 ∧ (prevClick cur).rendered = none) := by
  refine ⟨?_, ?_, ?_, ?_⟩
  · intro j hj
    by_cases hv : validateAt sections cur = true
    · by_cases hlt : cur + 1 < (sections.length : Int)
      · simp [nextClick, hv, hlt, Option.mem_def] at hj
        omega
      · simp [nextClick, hv, hlt, Option.mem_def] at hj
    · simp [nextClick, hv, Option.mem_def] at hj
  · intro j hj
    by_cases hge : (0 : Int) ≤ cur - 1
    · simp [prevClick, hge, Option.mem_def] at hj
      omega
    · simp [prevClick, hge, Option.mem_def] at hj
  · intro hlast hv
    have hnlt : ¬(cur + 1 < (sections.length : Int)) := by omega
    constructor
    · simp [nextClick, hv, hnlt]
      omega
    · simp [nextClick, hv, hnlt]
  · intro hz
    subst hz
    constructor
    · simp [prevClick]
    · simp [prevClick]

/-- C2 witness for the amended statement: with two valid sections,
advancing from the last index (1) yields index 2 with no render, and
retreating from index 0 yields -1 with no render. -/
theorem nav_handlers_bounds_witness :
    ((nextClick [[], []] 1).state = (([[], []] : List FormSection).length : Int) ∧
      (nextClick [[], []] 1).rendered = none) ∧
    ((prevClick 0).state = -1 ∧ (prevClick 0).rendered = none) :=
  ⟨(nav_handlers_bounds [[], []] 1 (by decide) (by decide)).2.2.1
      (by decide) (by decide),
   (nav_handlers_bounds [[], []] 0 (by decide) (by decide)).2.2.2 rfl⟩

/-- C7: for an in-range index `i`, `showSection(i)` leaves exactly
section `i` carrying the `active` class, whatever the flags were
before. -/
theorem showSection_active_iff (flags : List Bool) (i j : Nat)
    (hi : i < flags.length) (hj : j < flags.length) :
    ((showSection flags i).active.getD j false = true) ↔ j = i := by
  unfold showSection
  have hjm : j < ((flags.map fun _ => false).set i true).length := by
    simpa using hj
  rw [List.getD_eq_getElem?_getD, List.getElem?_eq_getElem hjm]
  by_cases h : j = i
  · subst h
    have hjm2 : j < (flags.map fun _ => false).length := by simpa using hj
    simp [List.getElem_set_self, hjm2]
  · have : i ≠ j := fun hh => h hh.symm
    simp [List.getElem_set_ne this, h]

/-- C7 witness: on a two-section wizard with both sections previously
active, rendering section 1 leaves section 1 active and section 0 not. -/
theorem showSection_active_iff_witness :
    (((showSection [true, true] 1).active.getD 1 false = true) ↔ 1 = 1) ∧
    (((showSection [true, true] 1).active.getD 0 false = true) ↔ 0 = 1) :=
  ⟨showSection_active_iff [true, true] 1 1 (by decide) (by decide),
   showSection_active_iff [true, true] 1 0 (by decide) (by decide)⟩

/-- C8: for an in-range index `i`, `showSection(i)` sets the progress
bar to `((i + 1) / N) * 100` percent, the step counter to `i + 1`, hides
the previous control exactly when `i = 0` (showing it otherwise), and at
exactly the last index hides the next control and shows the submit
control (the reverse otherwise). -/
theorem showSection_chrome (flags : List Bool) (i : Nat)
    (_hi : i < flags.length) :
    (showSection flags i).progressPercent =
        (((i : ℚ) + 1) / (flags.length : ℚ)) * 100 ∧
    (showSection flags i).stepCounter = i + 1 ∧
    ((showSection flags i).prevDisplay = "none" ↔ i = 0) ∧
    (i ≠ 0 → (showSection flags i).prevDisplay = "inline-block") ∧
    ((showSection flags i).nextDisplay = "none" ↔ i = flags.length - 1) ∧
    ((showSection flags i).submitDisplay = "inline-block" ↔
        i = flags.length - 1) ∧
    (i ≠ flags.length - 1 →
      (showSection flags i).nextDisplay = "inline-block" ∧
      (showSection flags i).submitDisplay = "none") := by
  have hprev : (showSection flags i).prevDisplay =
      (if i = 0 then "none" else "inline-block") := rfl
  have hnext : (showSection flags i).nextDisplay =
      (if i = flags.length - 1 then "none" else "inline-block") := by
    unfold showSection
    by_cases hN : i = flags.length - 1 <;> simp [hN]
  have hsub : (showSection flags i).submitDisplay =
      (if i = flags.length - 1 then "inline-block" else "none") := by
    unfold showSection
    by_cases hN : i = flags.length - 1 <;> simp [hN]
  refine ⟨rfl, rfl, ?_, ?_, ?_, ?_, ?_⟩
  · rw [hprev]
    by_cases h0 : i = 0 <;> simp [h0]
  · intro h0
    rw [hprev]
    simp [h0]
  · rw [hnext]
    by_cases hN : i = flags.length - 1 <;> simp [hN]
  · rw [hsub]
    by_cases hN : i = flags.length - 1 <;> simp [hN]
  · intro hN
    rw [hnext, hsub]
    simp [hN]

/-- C8 witness: on a three-section wizard, rendering the middle section
gives 2/3 progress, step 2, and both boundary controls in their
non-boundary configuration. -/
theorem showSection_chrome_witness :
    (showSection [false, false, false] 1).progressPercent =
        (((1 : ℚ) + 1) / (([false, false, false] : List Bool).length : ℚ)) * 100 ∧
    (showSection [false, false, false] 1).stepCounter = 1 + 1 ∧
    ((showSection [false, false, false] 1).prevDisplay = "none" ↔ 1 = 0) ∧
    (1 ≠ 0 → (showSection [false, false, false] 1).prevDisplay = "inline-block") ∧
    ((showSection [false, false, false] 1).nextDisplay = "none" ↔
        1 = ([false, false, false] : List Bool).length - 1) ∧
    ((showSection [false, false, false] 1).submitDisplay = "inline-block" ↔
        1 = ([false, false, false] : List Bool).length - 1) ∧
    (1 ≠ ([false, false, false] : List Bool).length - 1 →
      (showSection [false, false, false] 1).nextDisplay = "inline-block" ∧
      (showSection [false, false, false] 1).submitDisplay = "none") :=
  showSection_chrome [false, false, false] 1 (by decide)

/-- C3 counterexample: on the well-formed rejection response
`{"success": false, "error": "bad input"}`, the alert raised by the
submit handler is not the server's error string — it is the generic
message of the `catch` block. -/
theorem submit_rejected_alert_counterexample :
    ((handleFetch { label := "Processing...", disabled := true }
        (some (Json.obj
          [("success", Json.bool false),
           ("error", Json.str "bad input")]))).alerted ≠ some "bad input") ∧
    ((handleFetch { label := "Processing...", disabled := true }
        (some (Json.obj
          [("success", Json.bool false),
           ("error", Json.str "bad input")]))).alerted
      = some genericErrorAlert) := by
  refine ⟨?_, rfl⟩
  intro h
  simp [handleFetch, optTruthy, jsTruthy, Json.getField, lookupAssoc,
    genericErrorAlert] at h

/-- C3 amended: on a well-formed response with `success` false and a
non-empty `error` string, the submit handler re-enables the submit
control with its original label, but the blocking message shown to the
user is the generic fallback; the server-provided error string only
reaches the console log (inside the thrown `Error`). -/
theorem submit_rejected_generic_alert (result : Json) (e : String)
    (hs : optTruthy (result.getField "success") = false)
    (he : result.getField "error" = some (Json.str e))
    (hne : e ≠ "") :
    (handleFetch { label := "Processing...", disabled := true }
        (some result)).alerted = some genericErrorAlert ∧
    (handleFetch { label := "Processing...", disabled := true }
        (some result)).button =
      { label := originalSubmitLabel, disabled := false } ∧
    (handleFetch { label := "Processing...", disabled := true }
        (some result)).logged =
      some (CaughtError.thrown (Json.str e)) ∧
    (handleFetch { label := "Processing...", disabled := true }
        (some result)).stored = none ∧
    (handleFetch { label := "Processing...", disabled := true }
        (some result)).navigatedTo = none := by
  have hval : errorValue result = Json.str e := by
    unfold errorValue
    rw [he]
    simp [jsTruthy, hne]
  refine ⟨?_, ?_, ?_, ?_, ?_⟩ <;>
    simp [handleFetch, hs, hval, originalSubmitLabel]

/-- C3 witness for the amended statement, at the spec's example response
`{"success": false, "error": "bad input"}`. -/
theorem submit_rejected_generic_alert_witness :
    (handleFetch { label := "Processing...", disabled := true }
        (some (Json.obj
          [("success", Json.bool false),
           ("error", Json.str "bad input")]))).alerted
      = some genericErrorAlert ∧
    (handleFetch { label := "Processing...", disabled := true }
        (some (Json.obj
          [("success", Json.bool false),
           ("error", Json.str "bad input")]))).button =
      { label := originalSubmitLabel, disabled := false } ∧
    (handleFetch { label := "Processing...", disabled := true }
        (some (Json.obj
          [("success", Json.bool false),
           ("error", Json.str "bad input")]))).logged =
      some (CaughtError.thrown (Json.str "bad input")) ∧
    (handleFetch { label := "Processing...", disabled := true }
        (some (Json.obj
          [("success", Json.bool false),
           ("error", Json.str "bad input")]))).stored = none ∧
    (handleFetch { label := "Processing...", disabled := true }
        (some (Json.obj
          [("success", Json.bool false),
           ("error", Json.str "bad input")]))).navigatedTo = none :=
  submit_rejected_generic_alert
    (Json.obj [("success", Json.bool false), ("error", Json.str "bad input")])
    "bad input" rfl rfl (by decide)

/-- C4: on a well-formed response whose `success` field is true, the
submit handler stores the JSON-serialization of the full response under
the sessionStorage key `riskResults` and navigates to `/results` (and
raises no alert). -/
theorem submit_success_stores_and_navigates (busy : BtnState) (result : Json)
    (hs : optTruthy (result.getField "success") = true) :
    (handleFetch busy (some result)).stored =
      some ("riskResults", Json.stringify result) ∧
    (handleFetch busy (some result)).navigatedTo = some "/results" ∧
    (handleFetch busy (some result)).alerted = none := by
  refine ⟨?_, ?_, ?_⟩ <;> simp [handleFetch, hs]

/-- C4 witness at a success response carrying a result payload. -/
theorem submit_success_stores_and_navigates_witness :
    (handleFetch { label := "Processing...", disabled := true }
        (some (Json.obj
          [("success", Json.bool true),
           ("result", Json.obj [("score", Json.num 8)])]))).stored =
      some ("riskResults",
        Json.stringify (Json.obj
          [("success", Json.bool true),
           ("result", Json.obj [("score", Json.num 8)])])) ∧
    (handleFetch { label := "Processing...", disabled := true }
        (some (Json.obj
          [("success", Json.bool true),
           ("result", Json.obj [("score", Json.num 8)])]))).navigatedTo =
      some "/results" ∧
    (handleFetch { label := "Processing...", disabled := true }
        (some (Json.obj
          [("success", Json.bool true),
           ("result", Json.obj [("score", Json.num 8)])]))).alerted = none :=
  submit_success_stores_and_navigates
    { label := "Processing...", disabled := true }
    (Json.obj
      [("success", Json.bool true),
       ("result", Json.obj [("score", Json.num 8)])]) rfl

/-- C6: when the section validates, a transport/parse failure makes the
submit handler restore the submit control to its enabled, original-label
state and raise the generic alert, while a success outcome leaves the
control disabled (the success path never re-enables it). -/
theorem submit_failure_restores_button (sec : FormSection) (btn0 : BtnState)
    (result : Json)
    (hv : validateSection sec = true)
    (hs : optTruthy (result.getField "success") = true) :
    (submitHandler sec btn0 none).button =
      { label := originalSubmitLabel, disabled := false } ∧
    (submitHandler sec btn0 none).alerted = some genericErrorAlert ∧
    (submitHandler sec btn0 none).logged = some CaughtError.transport ∧
    (submitHandler sec btn0 (some result)).button.disabled = true := by
  refine ⟨?_, ?_, ?_, ?_⟩ <;>
    simp [submitHandler, hv, handleFetch, hs, originalSubmitLabel]

/-- C6 witness: an empty (hence valid) section, the original button, and
a success response. -/
theorem submit_failure_restores_button_witness :
    (submitHandler [] { label := originalSubmitLabel, disabled := false }
        none).button =
      { label := originalSubmitLabel, disabled := false } ∧
    (submitHandler [] { label := originalSubmitLabel, disabled := false }
        none).alerted = some genericErrorAlert ∧
    (submitHandler [] { label := originalSubmitLabel, disabled := false }
        none).logged = some CaughtError.transport ∧
    (submitHandler [] { label := originalSubmitLabel, disabled := false }
        (some (Json.obj [("success", Json.bool true)]))).button.disabled =
      true :=
  submit_failure_restores_button []
    { label := originalSubmitLabel, disabled := false }
    (Json.obj [("success", Json.bool true)]) (by decide) rfl

/-- C5: the FormData-to-JSON loop produces a flat mapping in which a
lookup returns the value of the last form-order entry for that name
(later duplicates overwrite earlier ones), and a name contributed only by
unchecked checkboxes is absent from the mapping. -/
theorem serializeForm_last_wins (form : List FormField) (key : String) :
    lookupAssoc (serializeForm form) key =
      ((formDataEntries form).reverse.find? fun kv => kv.1 == key).map
        Prod.snd ∧
    ((∀ f ∈ form, f.name = key →
        f.type = FieldType.checkbox ∧ f.checked = false) →
      lookupAssoc (serializeForm form) key = none) := by
  have hmain : lookupAssoc (serializeForm form) key =
      ((formDataEntries form).reverse.find? fun kv => kv.1 == key).map
        Prod.snd := by
    unfold serializeForm
    rw [lookupAssoc_foldl_setAssoc]
    simp [lookupAssoc]
  refine ⟨hmain, fun h => ?_⟩
  rw [hmain]
  have hfind : (formDataEntries form).reverse.find?
      (fun kv => kv.1 == key) = none := by
    rw [List.find?_eq_none]
    intro x hx
    rw [List.mem_reverse] at hx
    unfold formDataEntries at hx
    rw [List.mem_filterMap] at hx
    obtain ⟨f, hf, hentry⟩ := hx
    simp only [beq_iff_eq]
    intro hxkey
    have hname : x.1 = f.name := by
      unfold formDataEntry at hentry
      cases hft : f.type <;> rw [hft] at hentry
      · exact congrArg Prod.fst (Option.some_injective _ hentry).symm
      · exact congrArg Prod.fst (Option.some_injective _ hentry).symm
      · by_cases hc : f.checked = true
        · rw [if_pos hc] at hentry
          exact congrArg Prod.fst (Option.some_injective _ hentry).symm
        · rw [if_neg hc] at hentry
          exact absurd hentry (by simp)
      · by_cases hc : f.checked = true
        · rw [if_pos hc] at hentry
          exact congrArg Prod.fst (Option.some_injective _ hentry).symm
        · rw [if_neg hc] at hentry
          exact absurd hentry (by simp)
    have hfk : f.name = key := by rw [← hname, hxkey]
    obtain ⟨hcb, hnc⟩ := h f hf hfk
    rw [formDataEntry, hcb, hnc] at hentry
    exact absurd hentry (by simp)
  rw [hfind]
  rfl

/-- C5 witness at the spec's example: a text field `age = "34"`, a
checked radio `riskGroup = "high"`, and an unchecked optional checkbox —
the unchecked box contributes no key. -/
theorem serializeForm_last_wins_witness :
    lookupAssoc
      (serializeForm
        [{ type := FieldType.text, name := "age", value := "34",
           checked := false, required := true },
         { type := FieldType.radio, name := "riskGroup", value := "high",
           checked := true, required := true },
         { type := FieldType.checkbox, name := "optin", value := "on",
           checked := false, required := false }]) "optin" = none :=
  (serializeForm_last_wins
    [{ type := FieldType.text, name := "age", value := "34",
       checked := false, required := true },
     { type := FieldType.radio, name := "riskGroup", value := "high",
       checked := true, required := true },
     { type := FieldType.checkbox, name := "optin", value := "on",
       checked := false, required := false }] "optin").2 (by decide)
